import Mathlib

/-!
Verification of the telemetry ingestion and emergency-detection pipeline of the
smart-safety-band backend (`src/server.js`), as a shallow embedding in Lean.

Numbers carried by the JSON payloads are modelled as rationals; missing fields
are `Option`-valued.  JavaScript truthiness on a numeric field (`if (x) ...`)
is modelled as "present and nonzero"; on a string field as "present and
nonempty".  Database writes are modelled by accumulating the records that were
successfully written, and a thrown/caught save error is injected through an
explicit failure profile that mirrors which `await ....save()` calls are
guarded by a `try/catch` in the source.
-/

namespace SafetyBand

/-- Activity `type` field: closed enum of the `activitySchema` (server.js line 675). -/
inductive ActivityType
  | sync
  | location
  | emergency
  | system
deriving DecidableEq, Repr

/-- Activity `status` field: closed enum of the `activitySchema` (server.js line 684). -/
inductive ActivityStatus
  | success
  | warning
  | error
  | normal
deriving DecidableEq, Repr

/-- An ActivityRecord as far as the claims are concerned: its `type` and `status`. -/
structure Activity where
  type : ActivityType
  status : ActivityStatus
deriving DecidableEq, Repr

/-! ## POST /receive (server.js lines 1041-1260) -/

/-- A vector reading in the request body; each axis may be absent. -/
structure Vec3Payload where
  x : Option ℚ
  y : Option ℚ
  z : Option ℚ
deriving DecidableEq, Repr

/-- The fields destructured from the /receive request body (line 1049). -/
structure ReceivePayload where
  accelerometer : Option Vec3Payload
  gyroscope : Option Vec3Payload
  latitude : Option ℚ
  longitude : Option ℚ
  timestamp : Option ℤ
  heartRate : Option ℚ
  temperature : Option ℚ
  batteryLevel : Option ℚ
deriving DecidableEq, Repr

/-- `const accX = accelerometer?.x || 0` (line 1052): absent object, absent axis,
and the falsy value 0 all collapse to 0. -/
def accX (p : ReceivePayload) : ℚ := (p.accelerometer.bind Vec3Payload.x).getD 0

/-- `const accY = accelerometer?.y || 0` (line 1053). -/
def accY (p : ReceivePayload) : ℚ := (p.accelerometer.bind Vec3Payload.y).getD 0

/-- `const accZ = accelerometer?.z || 0` (line 1054). -/
def accZ (p : ReceivePayload) : ℚ := (p.accelerometer.bind Vec3Payload.z).getD 0

/-- `const gyroX = gyroscope?.x || 0` (line 1055). -/
def gyroX (p : ReceivePayload) : ℚ := (p.gyroscope.bind Vec3Payload.x).getD 0

/-- `const gyroY = gyroscope?.y || 0` (line 1056). -/
def gyroY (p : ReceivePayload) : ℚ := (p.gyroscope.bind Vec3Payload.y).getD 0

/-- `const gyroZ = gyroscope?.z || 0` (line 1057). -/
def gyroZ (p : ReceivePayload) : ℚ := (p.gyroscope.bind Vec3Payload.z).getD 0

/-- The radicand of `totalAcceleration = Math.sqrt(accX*accX + accY*accY + accZ*accZ)`
(line 1070); the square root itself is taken in the theorems via `Real.sqrt`. -/
def totalAccelerationSq (p : ReceivePayload) : ℚ :=
  accX p * accX p + accY p * accY p + accZ p * accZ p

/-- The radicand of `totalRotation = Math.sqrt(gyroX*gyroX + gyroY*gyroY + gyroZ*gyroZ)`
(line 1071). -/
def totalRotationSq (p : ReceivePayload) : ℚ :=
  gyroX p * gyroX p + gyroY p * gyroY p + gyroZ p * gyroZ p

/-- Fall condition of line 1161, `totalAcceleration > 15 || totalAcceleration < 2`,
stated on the squared magnitude (`sqrt s > 15` iff `s > 225`, `sqrt s < 2` iff
`s < 4`; the equivalence with the `Real.sqrt` form is `fallCond_iff_sqrt`). -/
def fallCond (p : ReceivePayload) : Bool :=
  decide (225 < totalAccelerationSq p) || decide (totalAccelerationSq p < 4)

/-- Rotation condition of line 1183, `totalRotation > 200`, stated on the squared
magnitude (`sqrt s > 200` iff `s > 40000`). -/
def rotationCond (p : ReceivePayload) : Bool :=
  decide (40000 < totalRotationSq p)

/-- Which `await ....save()` calls of the /receive handler fail by throwing. -/
structure FailureProfile where
  sampleSaveFails : Bool
  fallSaveFails : Bool
  rotationSaveFails : Bool
  syncSaveFails : Bool
deriving DecidableEq, Repr

/-- The normal run: every store write succeeds. -/
def noFailures : FailureProfile := ⟨false, false, false, false⟩

/-- The `analysis` object of the /receive success response (lines 1233-1242),
restricted to the two boolean flags the claims mention. -/
structure Analysis where
  fallDetected : Bool
  emergencyTriggered : Bool
deriving DecidableEq, Repr

/-- Outcome of one /receive request: HTTP status, whether the primary sample
write succeeded, the activity records actually written, and the analysis of the
success response (`none` when the handler answered 500). -/
structure ReceiveResult where
  statusCode : ℕ
  sampleSaved : Bool
  activities : List Activity
  analysis : Option Analysis
deriving DecidableEq, Repr

/-- Embedding of the POST /receive handler (lines 1041-1260).  Control flow of
the source: the sample save is wrapped in a `try` that rethrows (lines
1140-1154), so its failure reaches the outer catch and yields a 500 with no
activity written.  The fall activity save (line 1178) and the rotation activity
save (line 1200) are NOT guarded: a throw there also reaches the outer catch
and yields a 500, keeping whatever was already written.  The sync activity save
(lines 1222-1227) IS guarded by its own `try/catch`: its failure is logged and
the 200 response is still sent. -/
def receiveHandler (p : ReceivePayload) (f : FailureProfile) : ReceiveResult :=
  if f.sampleSaveFails then
    { statusCode := 500, sampleSaved := false, activities := [], analysis := none }
  else
    let fallDetected := fallCond p
    if fallDetected && f.fallSaveFails then
      { statusCode := 500, sampleSaved := true, activities := [], analysis := none }
    else
      let acts1 := if fallDetected then [Activity.mk .emergency .warning] else []
      let emergencyTriggered := rotationCond p
      if emergencyTriggered && f.rotationSaveFails then
        { statusCode := 500, sampleSaved := true, activities := acts1, analysis := none }
      else
        let acts2 := acts1 ++ (if emergencyTriggered then [Activity.mk .emergency .error] else [])
        let acts3 := acts2 ++ (if f.syncSaveFails then [] else [Activity.mk .sync .success])
        { statusCode := 200, sampleSaved := true, activities := acts3,
          analysis := some ⟨fallDetected, emergencyTriggered⟩ }

/-! ## POST /api/sensor/data (server.js lines 1263-1390) -/

/-- The fields destructured from the /api/sensor/data request body (lines
1265-1277), restricted to those the claims are about.  The two device-asserted
booleans are modelled after truthiness collapse (absent = false). -/
structure ApiPayload where
  deviceId : Option String
  heartRate : Option ℚ
  temperature : Option ℚ
  batteryLevel : Option ℚ
  emergencyTriggered : Bool
  fallDetected : Bool
deriving DecidableEq, Repr

/-- JavaScript truthiness of an optional string (`if (!deviceId)`, line 1280):
absent and the empty string are falsy. -/
def jsTruthyStr (v : Option String) : Bool :=
  match v with
  | none => false
  | some s => decide (s ≠ ("" : String))

/-- Emergency-button rule (lines 1317-1327): `if (emergencyTriggered)` writes one
Activity with type `emergency`, status `error`. -/
def emergencyButtonActivity (p : ApiPayload) : Option Activity :=
  if p.emergencyTriggered then some ⟨.emergency, .error⟩ else none

/-- Device-asserted fall rule (lines 1329-1339): `if (fallDetected)` writes one
Activity with type `emergency`, status `warning`. -/
def deviceFallActivity (p : ApiPayload) : Option Activity :=
  if p.fallDetected then some ⟨.emergency, .warning⟩ else none

/-- Heart-rate rule (lines 1342-1352): `if (heartRate && (heartRate > 120 ||
heartRate < 50))` writes one Activity with type `system` and status
`heartRate > 150 ? 'error' : 'warning'`.  The leading `heartRate &&` is a JS
truthiness test, so an absent or zero reading never fires. -/
def vitalsActivity (p : ApiPayload) : Option Activity :=
  match p.heartRate with
  | none => none
  | some hr =>
      if hr ≠ 0 ∧ (120 < hr ∨ hr < 50) then
        some ⟨.system, if 150 < hr then .error else .warning⟩
      else none

/-- Temperature rule (lines 1354-1364): `if (temperature && (temperature > 38 ||
temperature < 35))` writes one Activity with type `system`, status `warning`. -/
def temperatureActivity (p : ApiPayload) : Option Activity :=
  match p.temperature with
  | none => none
  | some t =>
      if t ≠ 0 ∧ (38 < t ∨ t < 35) then some ⟨.system, .warning⟩ else none

/-- Battery rule (lines 1367-1377): `if (batteryLevel && batteryLevel < 20)`
writes one Activity with type `system` and status
`batteryLevel < 10 ? 'error' : 'warning'`. -/
def batteryActivity (p : ApiPayload) : Option Activity :=
  match p.batteryLevel with
  | none => none
  | some b =>
      if b ≠ 0 ∧ b < 20 then
        some ⟨.system, if b < 10 then .error else .warning⟩
      else none

/-- Outcome of one /api/sensor/data request: HTTP status, the activity records
written, and the `activitiesTriggered` string list of the response (line 1382). -/
structure ApiResult where
  statusCode : ℕ
  activities : List Activity
  triggered : List String
deriving DecidableEq, Repr

/-- Embedding of the POST /api/sensor/data handler (lines 1263-1390): 400 when
`deviceId` is falsy, 404 when no user resolves, otherwise the sample is saved,
the five rules run in source order each appending its activity and its
`activitiesTriggered` tag, and the handler answers 201.  Note that no `sync`
activity is created on this route. -/
def apiSensorData (p : ApiPayload) (userFound : Bool) : ApiResult :=
  if !jsTruthyStr p.deviceId then
    { statusCode := 400, activities := [], triggered := [] }
  else if !userFound then
    { statusCode := 404, activities := [], triggered := [] }
  else
    let activities :=
      (emergencyButtonActivity p).toList ++ (deviceFallActivity p).toList ++
        (vitalsActivity p).toList ++ (temperatureActivity p).toList ++
        (batteryActivity p).toList
    let triggered :=
      (if (emergencyButtonActivity p).isSome then [("emergency_triggered" : String)] else []) ++
        (if (deviceFallActivity p).isSome then [("fall_detected" : String)] else []) ++
        (if (vitalsActivity p).isSome then [("abnormal_vitals" : String)] else []) ++
        (if (temperatureActivity p).isSome then [("abnormal_temperature" : String)] else []) ++
        (if (batteryActivity p).isSome then [("low_battery" : String)] else [])
    { statusCode := 201, activities := activities, triggered := triggered }

/-! ## Telemetry store, history and retention (server.js lines 1411-1440 and 2204-2221) -/

/-- A stored TelemetrySample as far as ordering and retention are concerned:
its `createdAt` timestamp in epoch milliseconds. -/
structure Sample where
  createdAt : ℤ
deriving DecidableEq, Repr

/-- `setInterval(cleanupOldSensorData, 5 * 60 * 1000)` (line 2221): the sweep
recurs on a fixed 5-minute interval. -/
def cleanupIntervalMs : ℕ := 5 * 60 * 1000

/-- Embedding of `cleanupOldSensorData` (lines 2205-2218): deletes every sample
with `createdAt < Date.now() - 30 * 60 * 1000`; returns the surviving store and
the `deletedCount`. -/
def cleanupOldSensorData (store : List Sample) (now : ℤ) : List Sample × ℕ :=
  let cutoff := now - 30 * 60 * 1000
  (store.filter (fun s => !decide (s.createdAt < cutoff)),
    (store.filter (fun s => decide (s.createdAt < cutoff))).length)

/-- Newest-first order on samples: `.sort({ createdAt: -1 })` (line 1425). -/
def byCreatedDesc (a b : Sample) : Prop := b.createdAt ≤ a.createdAt

instance : DecidableRel byCreatedDesc :=
  fun a b => inferInstanceAs (Decidable (b.createdAt ≤ a.createdAt))

instance : IsTotal Sample byCreatedDesc :=
  ⟨fun a b => le_total b.createdAt a.createdAt⟩

instance : IsTrans Sample byCreatedDesc :=
  ⟨fun _ _ _ hab hbc => le_trans hbc hab⟩

/-- Query parameters of GET /api/sensor/history (line 1413). -/
structure HistoryQuery where
  limit : ℕ
  skip : ℕ
  startDate : Option ℤ
  endDate : Option ℤ
deriving DecidableEq, Repr

/-- The optional `createdAt` range filter of lines 1418-1422. -/
def matchesRange (q : HistoryQuery) (s : Sample) : Bool :=
  (match q.startDate with
    | none => true
    | some d => decide (d ≤ s.createdAt)) &&
  (match q.endDate with
    | none => true
    | some d => decide (s.createdAt ≤ d))

/-- Response of GET /api/sensor/history (lines 1431-1435). -/
structure HistoryResult where
  data : List Sample
  total : ℕ
  hasMore : Bool
deriving DecidableEq, Repr

/-- Embedding of GET /api/sensor/history (lines 1411-1440): filter by the
optional date range, sort by `createdAt` descending, apply `skip` then `limit`
(mongoose applies `.skip` before `.limit` regardless of call order), and report
`hasMore = skip + limit < total` where `total` counts all filtered documents. -/
def sensorHistory (store : List Sample) (q : HistoryQuery) : HistoryResult :=
  let filtered := store.filter (matchesRange q)
  let sorted := List.insertionSort byCreatedDesc filtered
  { data := (sorted.drop q.skip).take q.limit,
    total := filtered.length,
    hasMore := decide (q.skip + q.limit < filtered.length) }

/-! ## GET /api/activities/stats (server.js lines 1012-1036) -/

/-- The `formattedStats` response object (lines 1019-1025). -/
structure ActivityStats where
  all : ℕ
  sync : ℕ
  location : ℕ
  emergency : ℕ
  system : ℕ
deriving DecidableEq, Repr

/-- `formattedStats[stat._id] = stat.count` (line 1028): overwrite the field
named by the activity type. -/
def ActivityStats.setType (st : ActivityStats) (t : ActivityType) (c : ℕ) : ActivityStats :=
  match t with
  | .sync => { st with sync := c }
  | .location => { st with location := c }
  | .emergency => { st with emergency := c }
  | .system => { st with system := c }

/-- Read the field of `ActivityStats` named by an activity type. -/
def ActivityStats.get (st : ActivityStats) (t : ActivityType) : ℕ :=
  match t with
  | .sync => st.sync
  | .location => st.location
  | .emergency => st.emergency
  | .system => st.system

/-- The `$group: { _id: '$type', count: { $sum: 1 } }` aggregation (line 1016):
one `(type, count)` pair per type that occurs in the user's activities. -/
def typeAggregate (acts : List Activity) : List (ActivityType × ℕ) :=
  ((acts.map Activity.type).dedup).map
    (fun t => (t, acts.countP (fun a => a.type == t)))

/-- Embedding of GET /api/activities/stats (lines 1012-1036): start from the
zero-initialised object whose `all` field is `countDocuments`, then overlay
each aggregation row onto its field. -/
def formattedStats (acts : List Activity) : ActivityStats :=
  (typeAggregate acts).foldl (fun st tc => st.setType tc.1 tc.2)
    { all := acts.length, sync := 0, location := 0, emergency := 0, system := 0 }

/-! ## POST /api/emergency/share-location (server.js lines 1877-1994) -/

/-- Outcome of one share-location request: HTTP status, how many delivery
attempts were made, the per-contact success and failure tallies, and how many
activity records were written. -/
structure ShareOutcome where
  statusCode : ℕ
  attempted : ℕ
  successes : ℕ
  failures : ℕ
  activitiesWritten : ℕ
deriving DecidableEq, Repr

/-- Embedding of POST /api/emergency/share-location (lines 1877-1994).  Gates:
503 when Twilio is unconfigured, 404 when the user or a located latest sample
is missing.  The per-contact loop (lines 1921-1956) guards each delivery with
its own `try/catch`, so one failure does not stop the rest; `deliveries` gives
each contact's delivery outcome in order.  After the loop, line 1959 executes
`new SyncActivity({...})`, but no `SyncActivity` model is defined anywhere in
the source (the models are `User`, `Activity`, `SensorData`), so this raises a
ReferenceError; the outer catch turns it into a 500 response, no activity
record is written, and the success response of lines 1973-1984 is never sent. -/
def shareLocation (twilioConfigured userFound hasLocation : Bool)
    (deliveries : List Bool) : ShareOutcome :=
  if !twilioConfigured then ⟨503, 0, 0, 0, 0⟩
  else if !userFound then ⟨404, 0, 0, 0, 0⟩
  else if !hasLocation then ⟨404, 0, 0, 0, 0⟩
  else
    let successes := deliveries.countP (fun b => b)
    let failures := deliveries.countP (fun b => !b)
    ⟨500, deliveries.length, successes, failures, 0⟩

/-! ## Helper lemmas -/

theorem totalAccelerationSq_nonneg (p : ReceivePayload) : (0 : ℚ) ≤ totalAccelerationSq p := by
  unfold totalAccelerationSq
  nlinarith [mul_self_nonneg (accX p), mul_self_nonneg (accY p), mul_self_nonneg (accZ p)]

/-- The squared-magnitude form of the fall condition agrees with the source's
`Math.sqrt` form: `sqrt s > 15 || sqrt s < 2` iff `s > 225 || s < 4`. -/
theorem fallCond_iff_sqrt (p : ReceivePayload) :
    fallCond p = true ↔
      (15 < Real.sqrt ((totalAccelerationSq p : ℚ) : ℝ) ∨
        Real.sqrt ((totalAccelerationSq p : ℚ) : ℝ) < 2) := by
  have h1 : (15 < Real.sqrt ((totalAccelerationSq p : ℚ) : ℝ)) ↔
      (225 < totalAccelerationSq p) := by
    rw [Real.lt_sqrt (by norm_num : (0:ℝ) ≤ 15),
      show ((15:ℝ)^2 = ((225:ℚ):ℝ)) by norm_num, Rat.cast_lt]
  have h2 : (Real.sqrt ((totalAccelerationSq p : ℚ) : ℝ) < 2) ↔
      (totalAccelerationSq p < 4) := by
    rw [Real.sqrt_lt' (by norm_num : (0:ℝ) < 2),
      show ((2:ℝ)^2 = ((4:ℚ):ℝ)) by norm_num, Rat.cast_lt]
  rw [h1, h2]
  simp [fallCond]

/-- The squared-magnitude form of the rotation condition agrees with the
source's `Math.sqrt` form: `sqrt s > 200` iff `s > 40000`. -/
theorem rotationCond_iff_sqrt (p : ReceivePayload) :
    rotationCond p = true ↔ 200 < Real.sqrt ((totalRotationSq p : ℚ) : ℝ) := by
  rw [Real.lt_sqrt (by norm_num : (0:ℝ) ≤ 200),
    show ((200:ℝ)^2 = ((40000:ℚ):ℝ)) by norm_num, Rat.cast_lt]
  simp [rotationCond]

theorem emergencyButtonActivity_eq (p : ApiPayload) (a : Activity)
    (h : emergencyButtonActivity p = some a) : a = Activity.mk .emergency .error := by
  cases hb : p.emergencyTriggered <;> simp [emergencyButtonActivity, hb] at h
  exact h.symm

theorem deviceFallActivity_eq (p : ApiPayload) (a : Activity)
    (h : deviceFallActivity p = some a) : a = Activity.mk .emergency .warning := by
  cases hb : p.fallDetected <;> simp [deviceFallActivity, hb] at h
  exact h.symm

theorem vitalsActivity_type (p : ApiPayload) (a : Activity)
    (h : vitalsActivity p = some a) : a.type = ActivityType.system := by
  cases hq : p.heartRate with
  | none => simp [vitalsActivity, hq] at h
  | some hr =>
      simp only [vitalsActivity, hq] at h
      split_ifs at h <;>
        first
        | (rw [Option.some.injEq] at h; rw [← h])
        | (exact absurd h (by simp))

theorem temperatureActivity_type (p : ApiPayload) (a : Activity)
    (h : temperatureActivity p = some a) : a = Activity.mk .system .warning := by
  cases hq : p.temperature with
  | none => simp [temperatureActivity, hq] at h
  | some t =>
      simp only [temperatureActivity, hq] at h
      split_ifs at h <;>
        first
        | (exact ((Option.some.injEq _ _).mp h).symm)
        | (exact absurd h (by simp))

theorem batteryActivity_type (p : ApiPayload) (a : Activity)
    (h : batteryActivity p = some a) : a.type = ActivityType.system := by
  cases hq : p.batteryLevel with
  | none => simp [batteryActivity, hq] at h
  | some b =>
      simp only [batteryActivity, hq] at h
      split_ifs at h <;>
        first
        | (rw [Option.some.injEq] at h; rw [← h])
        | (exact absurd h (by simp))

/-- The activities written by /api/sensor/data: empty when the request is
rejected, otherwise the five rule outputs in source order. -/
theorem apiSensorData_activities (q : ApiPayload) (u : Bool) :
    (apiSensorData q u).activities = [] ∨
    (apiSensorData q u).activities =
      (emergencyButtonActivity q).toList ++ (deviceFallActivity q).toList ++
        (vitalsActivity q).toList ++ (temperatureActivity q).toList ++
        (batteryActivity q).toList := by
  unfold apiSensorData
  by_cases h1 : (!jsTruthyStr q.deviceId) = true
  · rw [if_pos h1]; left; rfl
  · rw [if_neg h1]
    by_cases h2 : (!u) = true
    · rw [if_pos h2]; left; rfl
    · rw [if_neg h2]; right; rfl

theorem countP_toList_zero (o : Option Activity) (pr : Activity → Bool)
    (h : ∀ a, o = some a → pr a = false) :
    (o.toList.countP pr) = 0 := by
  cases o with
  | none => rfl
  | some a => simp [List.countP, List.countP.go, h a rfl]

/-! ## Claim theorems -/

/-- C1: for every payload ingested via /receive (axes defaulting to 0 when
absent), the fall rule fires — the response's `fallDetected` flag is true —
iff `sqrt(x²+y²+z²) > 15` or `sqrt(x²+y²+z²) < 2`, and exactly one activity
record with status `warning` is written exactly when it fires. -/
theorem receive_fall_rule (p : ReceivePayload) :
    ((receiveHandler p noFailures).analysis.map Analysis.fallDetected = some true ↔
      (15 < Real.sqrt ((totalAccelerationSq p : ℚ) : ℝ) ∨
        Real.sqrt ((totalAccelerationSq p : ℚ) : ℝ) < 2))
    ∧ ((receiveHandler p noFailures).activities.countP
          (fun a => a.status == ActivityStatus.warning) = 1 ↔
      (15 < Real.sqrt ((totalAccelerationSq p : ℚ) : ℝ) ∨
        Real.sqrt ((totalAccelerationSq p : ℚ) : ℝ) < 2))
    ∧ (receiveHandler p noFailures).activities.countP
          (fun a => a.status == ActivityStatus.warning) ≤ 1 := by
  rw [← fallCond_iff_sqrt p]
  cases hf : fallCond p <;> cases hr : rotationCond p <;>
    simp [receiveHandler, noFailures, hf, hr, List.countP, List.countP.go] <;> decide

/-- C2 (amended): every /receive ingestion whose writes succeed reports 200 and
writes exactly one `sync` activity record, regardless of which emergency
signals fired; the /api/sensor/data variant never writes a `sync` record. -/
theorem receive_and_api_sync_records (p : ReceivePayload) (q : ApiPayload) (u : Bool) :
    (receiveHandler p noFailures).statusCode = 200
    ∧ (receiveHandler p noFailures).activities.countP
        (fun a => a.type == ActivityType.sync) = 1
    ∧ (apiSensorData q u).activities.countP
        (fun a => a.type == ActivityType.sync) = 0 := by
  refine ⟨?_, ?_, ?_⟩
  · cases hf : fallCond p <;> cases hr : rotationCond p <;>
      simp [receiveHandler, noFailures, hf, hr]
  · cases hf : fallCond p <;> cases hr : rotationCond p <;>
      simp [receiveHandler, noFailures, hf, hr, List.countP, List.countP.go] <;> decide
  · rcases apiSensorData_activities q u with h | h <;> rw [h]
    · rfl
    · simp only [List.countP_append]
      rw [countP_toList_zero _ _ (fun a h => by rw [emergencyButtonActivity_eq q a h]; rfl),
        countP_toList_zero _ _ (fun a h => by rw [deviceFallActivity_eq q a h]; rfl),
        countP_toList_zero _ _ (fun a h => by
          have := vitalsActivity_type q a h
          simp [this]),
        countP_toList_zero _ _ (fun a h => by rw [temperatureActivity_type q a h]; rfl),
        countP_toList_zero _ _ (fun a h => by
          have := batteryActivity_type q a h
          simp [this])]

/-- When an /api/sensor/data request is accepted (201), its activities are the
five rule outputs in source order. -/
theorem apiSensorData_accepted_activities (q : ApiPayload) (u : Bool)
    (h : (apiSensorData q u).statusCode = 201) :
    (apiSensorData q u).activities =
      (emergencyButtonActivity q).toList ++ (deviceFallActivity q).toList ++
        (vitalsActivity q).toList ++ (temperatureActivity q).toList ++
        (batteryActivity q).toList := by
  unfold apiSensorData at h ⊢
  by_cases h1 : (!jsTruthyStr q.deviceId) = true
  · rw [if_pos h1] at h; exact absurd h (by norm_num)
  · rw [if_neg h1] at h ⊢
    by_cases h2 : (!u) = true
    · rw [if_pos h2] at h; exact absurd h (by norm_num)
    · rw [if_neg h2]

/-- The `activitiesTriggered` names of /api/sensor/data: empty when the request
is rejected, otherwise one fixed tag per fired rule, in source order. -/
theorem apiSensorData_triggered_eq (q : ApiPayload) (u : Bool) :
    (apiSensorData q u).triggered = [] ∨
    (apiSensorData q u).triggered =
      (if (emergencyButtonActivity q).isSome then [("emergency_triggered" : String)] else []) ++
        (if (deviceFallActivity q).isSome then [("fall_detected" : String)] else []) ++
        (if (vitalsActivity q).isSome then [("abnormal_vitals" : String)] else []) ++
        (if (temperatureActivity q).isSome then [("abnormal_temperature" : String)] else []) ++
        (if (batteryActivity q).isSome then [("low_battery" : String)] else []) := by
  unfold apiSensorData
  by_cases h1 : (!jsTruthyStr q.deviceId) = true
  · rw [if_pos h1]; left; rfl
  · rw [if_neg h1]
    by_cases h2 : (!u) = true
    · rw [if_pos h2]; left; rfl
    · rw [if_neg h2]; right; rfl

theorem countP_toList_one (o : Option Activity) (pr : Activity → Bool)
    (h : ∀ a, o = some a → pr a = true) :
    o.toList.countP pr = if o.isSome then 1 else 0 := by
  cases o with
  | none => rfl
  | some a => simp [List.countP, List.countP.go, h a rfl]

/-- C3 (amended): on /api/sensor/data each fired signal yields exactly one
activity record; the emergency-button record is (emergency, error) and the
device-fall record is (emergency, warning), while the abnormal-vitals,
abnormal-temperature and low-battery records have type `system` (not
`emergency`), with statuses matching the severities (vitals error above 150,
battery error below 10, temperature always warning). -/
theorem api_signal_activity_records (q : ApiPayload)
    (hacc : (apiSensorData q true).statusCode = 201) :
    ((apiSensorData q true).activities.countP
        (fun a => a.type == ActivityType.emergency && a.status == ActivityStatus.error) =
      (if q.emergencyTriggered then 1 else 0))
    ∧ ((apiSensorData q true).activities.countP
        (fun a => a.type == ActivityType.emergency && a.status == ActivityStatus.warning) =
      (if q.fallDetected then 1 else 0))
    ∧ ((apiSensorData q true).activities.countP
        (fun a => a.type == ActivityType.system) =
      (if (vitalsActivity q).isSome then 1 else 0)
      + (if (temperatureActivity q).isSome then 1 else 0)
      + (if (batteryActivity q).isSome then 1 else 0))
    ∧ (∀ a, vitalsActivity q = some a → a.type = ActivityType.system)
    ∧ (∀ a, temperatureActivity q = some a → a = Activity.mk .system .warning)
    ∧ (∀ a, batteryActivity q = some a → a.type = ActivityType.system)
    ∧ (∀ hr, q.heartRate = some hr → ∀ a, vitalsActivity q = some a →
        a.status = (if 150 < hr then ActivityStatus.error else ActivityStatus.warning))
    ∧ (∀ b, q.batteryLevel = some b → ∀ a, batteryActivity q = some a →
        a.status = (if b < 10 then ActivityStatus.error else ActivityStatus.warning)) := by
  have hact := apiSensorData_accepted_activities q true hacc
  refine ⟨?_, ?_, ?_, fun a h => vitalsActivity_type q a h,
    fun a h => temperatureActivity_type q a h,
    fun a h => batteryActivity_type q a h, ?_, ?_⟩
  · rw [hact]
    simp only [List.countP_append]
    rw [countP_toList_zero (deviceFallActivity q) _
        (fun a h => by rw [deviceFallActivity_eq q a h]; rfl),
      countP_toList_zero (vitalsActivity q) _
        (fun a h => by simp [vitalsActivity_type q a h]),
      countP_toList_zero (temperatureActivity q) _
        (fun a h => by rw [temperatureActivity_type q a h]; rfl),
      countP_toList_zero (batteryActivity q) _
        (fun a h => by simp [batteryActivity_type q a h])]
    cases hb : q.emergencyTriggered <;>
      simp [emergencyButtonActivity, hb, List.countP, List.countP.go]
  · rw [hact]
    simp only [List.countP_append]
    rw [countP_toList_zero (emergencyButtonActivity q) _
        (fun a h => by rw [emergencyButtonActivity_eq q a h]; rfl),
      countP_toList_zero (vitalsActivity q) _
        (fun a h => by simp [vitalsActivity_type q a h]),
      countP_toList_zero (temperatureActivity q) _
        (fun a h => by rw [temperatureActivity_type q a h]; rfl),
      countP_toList_zero (batteryActivity q) _
        (fun a h => by simp [batteryActivity_type q a h])]
    cases hb : q.fallDetected <;>
      simp [deviceFallActivity, hb, List.countP, List.countP.go]
  · rw [hact]
    simp only [List.countP_append]
    rw [countP_toList_zero (emergencyButtonActivity q) _
        (fun a h => by rw [emergencyButtonActivity_eq q a h]; rfl),
      countP_toList_zero (deviceFallActivity q) _
        (fun a h => by rw [deviceFallActivity_eq q a h]; rfl),
      countP_toList_one (vitalsActivity q) _
        (fun a h => by simp [vitalsActivity_type q a h]),
      countP_toList_one (temperatureActivity q) _
        (fun a h => by rw [temperatureActivity_type q a h]; rfl),
      countP_toList_one (batteryActivity q) _
        (fun a h => by simp [batteryActivity_type q a h])]
    simp [Nat.add_assoc]
  · intro hr hhr a ha
    simp only [vitalsActivity, hhr] at ha
    by_cases h2 : 150 < hr
    · simp only [if_pos h2] at ha ⊢
      split_ifs at ha with h1
      all_goals try exact Option.noConfusion ha
      all_goals (rw [Option.some.injEq] at ha; rw [← ha])
    · simp only [if_neg h2] at ha ⊢
      split_ifs at ha with h1
      all_goals try exact Option.noConfusion ha
      all_goals (rw [Option.some.injEq] at ha; rw [← ha])
  · intro b hb a ha
    simp only [batteryActivity, hb] at ha
    by_cases h2 : b < 10
    · simp only [if_pos h2] at ha ⊢
      split_ifs at ha with h1
      all_goals try exact Option.noConfusion ha
      all_goals (rw [Option.some.injEq] at ha; rw [← ha])
    · simp only [if_neg h2] at ha ⊢
      split_ifs at ha with h1
      all_goals try exact Option.noConfusion ha
      all_goals (rw [Option.some.injEq] at ha; rw [← ha])

/-- C3 counterexample: a /api/sensor/data sample with an abnormal heart rate of
130 fires the abnormal-vitals signal, yet the written record has type `system`,
not `emergency`. -/
theorem api_vitals_record_not_emergency :
    (apiSensorData ⟨some ("DEV1"), some 130, none, none, false, false⟩ true).triggered =
        [("abnormal_vitals" : String)]
    ∧ (apiSensorData ⟨some ("DEV1"), some 130, none, none, false, false⟩ true).activities =
        [Activity.mk .system .warning]
    ∧ (apiSensorData ⟨some ("DEV1"), some 130, none, none, false, false⟩ true).activities.countP
        (fun a => a.type == ActivityType.emergency) = 0 := by
  decide

/-- C3 witness: a payload firing all five signals is accepted and yields two
emergency-typed records and three system-typed records. -/
theorem api_signal_activity_records_witness :
    (apiSensorData ⟨some ("DEV1"), some 130, some 39, some 15, true, true⟩ true).statusCode = 201
    ∧ (apiSensorData ⟨some ("DEV1"), some 130, some 39, some 15, true, true⟩ true).activities.countP
        (fun a => a.type == ActivityType.system) = 3 := by
  refine ⟨by decide, ?_⟩
  have h := (api_signal_activity_records
    ⟨some ("DEV1"), some 130, some 39, some 15, true, true⟩ (by decide)).2.2.1
  rw [h]
  decide

/-- C4 (amended): on /api/sensor/data, with heartRate present and nonzero (the
guard is a JS truthiness test), the abnormal-vitals signal fires iff
heartRate > 120 or heartRate < 50, and its record's status is `error` when
heartRate > 150 and `warning` otherwise. -/
theorem api_heart_rate_rule (q : ApiPayload) (hr : ℚ)
    (hq : q.heartRate = some hr) (hnz : hr ≠ 0) :
    ((vitalsActivity q).isSome = true ↔ (120 < hr ∨ hr < 50))
    ∧ ((120 < hr ∨ hr < 50) →
        vitalsActivity q =
          some ⟨.system, if 150 < hr then ActivityStatus.error else ActivityStatus.warning⟩) := by
  constructor
  · simp only [vitalsActivity, hq]
    by_cases h1 : hr ≠ 0 ∧ (120 < hr ∨ hr < 50)
    · rw [if_pos h1]
      simp only [Option.isSome_some]
      exact iff_of_true (by trivial) h1.2
    · rw [if_neg h1]
      simp only [Option.isSome_none]
      constructor
      · intro hf
        exact absurd hf (by simp)
      · intro hcond
        exact absurd ⟨hnz, hcond⟩ h1
  · intro hcond
    simp only [vitalsActivity, hq]
    rw [if_pos ⟨hnz, hcond⟩]

/-- C4 counterexample: heartRate = 0 is present and below 50, yet the
abnormal-vitals signal does not fire, because the guard `heartRate && ...` is
falsy at 0. -/
theorem api_heart_rate_rule_counterexample :
    (ApiPayload.mk (some ("DEV1")) (some 0) none none false false).heartRate = some 0
    ∧ ((0:ℚ) < 50)
    ∧ vitalsActivity (ApiPayload.mk (some ("DEV1")) (some 0) none none false false) = none
    ∧ (apiSensorData (ApiPayload.mk (some ("DEV1")) (some 0) none none false false) true).triggered
        = [] := by
  decide

/-- C4 witness: heartRate 155 yields an error-status record and heartRate 130 a
warning-status record. -/
theorem api_heart_rate_rule_witness :
    vitalsActivity ⟨some ("DEV1"), some 155, none, none, false, false⟩ =
        some ⟨.system, ActivityStatus.error⟩
    ∧ vitalsActivity ⟨some ("DEV1"), some 130, none, none, false, false⟩ =
        some ⟨.system, ActivityStatus.warning⟩ := by
  constructor
  · have h := (api_heart_rate_rule ⟨some ("DEV1"), some 155, none, none, false, false⟩ 155 rfl
      (by norm_num)).2 (by norm_num)
    rw [h]
    norm_num
  · have h := (api_heart_rate_rule ⟨some ("DEV1"), some 130, none, none, false, false⟩ 130 rfl
      (by norm_num)).2 (by norm_num)
    rw [h]
    norm_num

/-- C2 counterexample: a successful /api/sensor/data ingestion (201) that
writes no `sync` activity record, contradicting "exactly one". -/
theorem api_ingest_without_sync_record :
    (apiSensorData ⟨some ("ESP32"), none, none, none, false, false⟩ true).statusCode = 201
    ∧ (apiSensorData ⟨some ("ESP32"), none, none, none, false, false⟩ true).activities.countP
        (fun a => a.type == ActivityType.sync) = 0 := by
  decide

/-- C10: on /api/sensor/data a scalar reading equal to 0 is treated as absent:
heartRate = 0 fires no abnormal-vitals signal (although 0 < 50),
temperature = 0 fires no abnormal-temperature signal (although 0 < 35) and
batteryLevel = 0 fires no low-battery signal (although 0 < 20), because each
rule's presence check is a JS truthiness test on the value. -/
theorem api_zero_readings_ignored (q : ApiPayload) :
    (q.heartRate = some 0 →
      vitalsActivity q = none
      ∧ ("abnormal_vitals" : String) ∉ (apiSensorData q true).triggered)
    ∧ (q.temperature = some 0 →
      temperatureActivity q = none
      ∧ ("abnormal_temperature" : String) ∉ (apiSensorData q true).triggered)
    ∧ (q.batteryLevel = some 0 →
      batteryActivity q = none
      ∧ ("low_battery" : String) ∉ (apiSensorData q true).triggered) := by
  refine ⟨fun hz => ?_, fun hz => ?_, fun hz => ?_⟩
  · have hv : vitalsActivity q = none := by simp [vitalsActivity, hz]
    refine ⟨hv, ?_⟩
    rcases apiSensorData_triggered_eq q true with h | h <;> rw [h]
    · simp
    · rw [hv]
      simp only [Option.isSome_none, Bool.false_eq_true, if_false]
      split_ifs <;> simp
  · have hv : temperatureActivity q = none := by simp [temperatureActivity, hz]
    refine ⟨hv, ?_⟩
    rcases apiSensorData_triggered_eq q true with h | h <;> rw [h]
    · simp
    · rw [hv]
      simp only [Option.isSome_none, Bool.false_eq_true, if_false]
      split_ifs <;> simp
  · have hv : batteryActivity q = none := by simp [batteryActivity, hz]
    refine ⟨hv, ?_⟩
    rcases apiSensorData_triggered_eq q true with h | h <;> rw [h]
    · simp
    · rw [hv]
      simp only [Option.isSome_none, Bool.false_eq_true, if_false]
      split_ifs <;> simp

/-- C10 witness: a payload with heartRate, temperature and batteryLevel all
exactly 0 raises none of the three signals. -/
theorem api_zero_readings_ignored_witness :
    vitalsActivity ⟨some ("DEV1"), some 0, some 0, some 0, false, false⟩ = none
    ∧ temperatureActivity ⟨some ("DEV1"), some 0, some 0, some 0, false, false⟩ = none
    ∧ batteryActivity ⟨some ("DEV1"), some 0, some 0, some 0, false, false⟩ = none := by
  have h := api_zero_readings_ignored ⟨some ("DEV1"), some 0, some 0, some 0, false, false⟩
  exact ⟨(h.1 rfl).1, (h.2.1 rfl).1, (h.2.2 rfl).1⟩

/-- A /receive payload whose acceleration magnitude is 20 (fall fires). -/
def fallPayload : ReceivePayload :=
  ⟨some ⟨some 0, some 0, some 20⟩, none, none, none, none, none, none, none⟩

/-- A /receive payload whose rotation magnitude is 300 (rapid motion fires). -/
def rotationPayload : ReceivePayload :=
  ⟨none, some ⟨some 300, some 0, some 0⟩, none, none, none, none, none, none⟩

/-- C5 (amended): in /receive only the sync-activity write is guarded: its
failure is logged and the ingest still reports 200 with the sample persisted,
but a failing fall or rapid-motion activity write aborts the request with a 500
even though the sample was persisted. -/
theorem receive_write_failure_policy (p : ReceivePayload) :
    ((receiveHandler p ⟨false, false, false, true⟩).statusCode = 200
      ∧ (receiveHandler p ⟨false, false, false, true⟩).sampleSaved = true)
    ∧ (fallCond p = true →
        (receiveHandler p ⟨false, true, false, false⟩).statusCode = 500
        ∧ (receiveHandler p ⟨false, true, false, false⟩).sampleSaved = true)
    ∧ (rotationCond p = true →
        (receiveHandler p ⟨false, false, true, false⟩).statusCode = 500
        ∧ (receiveHandler p ⟨false, false, true, false⟩).sampleSaved = true) := by
  refine ⟨?_, ?_, ?_⟩
  · cases hf : fallCond p <;> cases hr : rotationCond p <;>
      simp [receiveHandler, hf, hr]
  · intro h
    simp [receiveHandler, h]
  · intro h
    cases hf : fallCond p <;> simp [receiveHandler, hf, h]

theorem fallCond_fallPayload : fallCond fallPayload = true := by
  simp [fallCond, totalAccelerationSq, accX, accY, accZ, fallPayload]
  norm_num

theorem rotationCond_rotationPayload : rotationCond rotationPayload = true := by
  simp [rotationCond, totalRotationSq, gyroX, gyroY, gyroZ, rotationPayload]
  norm_num

/-- C5 counterexample: a fall-triggering payload whose fall-activity write
fails is answered 500 although the sample itself was persisted, contradicting
"the overall ingest operation still reports success". -/
theorem receive_write_failure_counterexample :
    (receiveHandler fallPayload ⟨false, true, false, false⟩).sampleSaved = true
    ∧ (receiveHandler fallPayload ⟨false, true, false, false⟩).statusCode = 500 := by
  constructor <;> simp [receiveHandler, fallCond_fallPayload]

/-- C5 witness: concrete payloads exercising all three branches of the
partial-failure policy. -/
theorem receive_write_failure_policy_witness :
    (receiveHandler fallPayload ⟨false, false, false, true⟩).statusCode = 200
    ∧ (receiveHandler fallPayload ⟨false, true, false, false⟩).statusCode = 500
    ∧ (receiveHandler rotationPayload ⟨false, false, true, false⟩).statusCode = 500 := by
  refine ⟨(receive_write_failure_policy fallPayload).1.1,
    ((receive_write_failure_policy fallPayload).2.1 fallCond_fallPayload).1,
    ((receive_write_failure_policy rotationPayload).2.2 rotationCond_rotationPayload).1⟩

/-- C6: every sweep deletes exactly the samples strictly older than 30 minutes
before the sweep time, the `deletedCount` counts them, the sweep recurs on a
fixed 5-minute interval, and concretely a sample created 31 minutes before the
sweep is deleted while one created 29 minutes before is retained. -/
theorem retention_sweep_rule (store : List Sample) (now : ℤ) :
    (∀ s, s ∈ (cleanupOldSensorData store now).1 ↔
      (s ∈ store ∧ ¬(s.createdAt < now - 30 * 60 * 1000)))
    ∧ (cleanupOldSensorData store now).2 =
        store.countP (fun s => decide (s.createdAt < now - 30 * 60 * 1000))
    ∧ cleanupIntervalMs = 5 * 60 * 1000
    ∧ Sample.mk (now - 31 * 60 * 1000) ∉
        (cleanupOldSensorData
          [Sample.mk (now - 31 * 60 * 1000), Sample.mk (now - 29 * 60 * 1000)] now).1
    ∧ Sample.mk (now - 29 * 60 * 1000) ∈
        (cleanupOldSensorData
          [Sample.mk (now - 31 * 60 * 1000), Sample.mk (now - 29 * 60 * 1000)] now).1 := by
  refine ⟨?_, ?_, rfl, ?_, ?_⟩
  · intro s
    simp [cleanupOldSensorData, List.mem_filter]
  · simp [cleanupOldSensorData, List.countP_eq_length_filter]
  · simp [cleanupOldSensorData, List.mem_filter, Sample.mk.injEq]
  · simp [cleanupOldSensorData, List.mem_filter, Sample.mk.injEq]

/-- C7 (code evaluated at the failing input): whenever the share-location
fan-out is reached, the handler ends in a 500 with no activity record written,
because line 1959 constructs the undefined `SyncActivity` model; with 3
contacts of which the 2nd delivery fails, all 3 deliveries are still attempted
and tallied as 2 successes and 1 failure, but the response is the 500 error,
not the success payload the claim describes, and no summary ActivityRecord
exists. -/
theorem share_location_undefined_model :
    (∀ ds : List Bool,
      (shareLocation true true true ds).statusCode = 500
      ∧ (shareLocation true true true ds).activitiesWritten = 0)
    ∧ shareLocation true true true [true, false, true] =
        { statusCode := 500, attempted := 3, successes := 2, failures := 1,
          activitiesWritten := 0 } := by
  exact ⟨fun ds => ⟨rfl, rfl⟩, by decide⟩

/-- C8: every telemetry history page is sorted by creation time descending,
`hasMore = skip + limit < total`, the page size is `min limit (total - skip)`;
concretely with 25 stored samples, limit 10 and offset 20 return 5 samples with
`hasMore = false`, and limit 10 with offset 0 returns `hasMore = true`. -/
theorem sensor_history_pagination (store : List Sample) (q : HistoryQuery) :
    ((sensorHistory store q).hasMore =
      decide (q.skip + q.limit < (sensorHistory store q).total))
    ∧ List.Sorted byCreatedDesc (sensorHistory store q).data
    ∧ (sensorHistory store q).data.length =
        min q.limit ((sensorHistory store q).total - q.skip)
    ∧ (sensorHistory ((List.range 25).map (fun i => Sample.mk (i : ℤ)))
        ⟨10, 20, none, none⟩).data.length = 5
    ∧ (sensorHistory ((List.range 25).map (fun i => Sample.mk (i : ℤ)))
        ⟨10, 20, none, none⟩).hasMore = false
    ∧ (sensorHistory ((List.range 25).map (fun i => Sample.mk (i : ℤ)))
        ⟨10, 0, none, none⟩).hasMore = true := by
  refine ⟨rfl, ?_, ?_, by decide, by decide, by decide⟩
  · exact List.Pairwise.sublist
      ((List.take_sublist _ _).trans (List.drop_sublist _ _))
      (List.sorted_insertionSort byCreatedDesc _)
  · simp [sensorHistory, List.length_take, List.length_drop, List.length_insertionSort]

/-! ## Statistics lemmas -/

theorem ActivityStats.get_setType_self (st : ActivityStats) (t : ActivityType) (c : ℕ) :
    (st.setType t c).get t = c := by
  cases t <;> rfl

theorem ActivityStats.get_setType_ne (st : ActivityStats) (t u : ActivityType) (c : ℕ)
    (h : u ≠ t) : (st.setType t c).get u = st.get u := by
  cases t <;> cases u <;> first | rfl | (exact absurd rfl h)

theorem ActivityStats.all_setType (st : ActivityStats) (t : ActivityType) (c : ℕ) :
    (st.setType t c).all = st.all := by
  cases t <;> rfl

theorem all_foldl_setType (pairs : List (ActivityType × ℕ)) (st : ActivityStats) :
    (pairs.foldl (fun s tc => s.setType tc.1 tc.2) st).all = st.all := by
  induction pairs generalizing st with
  | nil => rfl
  | cons hd tl ih => rw [List.foldl_cons, ih, ActivityStats.all_setType]

theorem lookup_eq_none_of_not_mem (l : List (ActivityType × ℕ)) (t : ActivityType)
    (h : t ∉ l.map Prod.fst) : l.lookup t = none := by
  induction l with
  | nil => rfl
  | cons hd tl ih =>
      obtain ⟨k, c⟩ := hd
      rw [List.map_cons, List.mem_cons, not_or] at h
      have hbeq : (t == k) = false := beq_eq_false_iff_ne.mpr h.1
      rw [List.lookup_cons]
      simp only [hbeq]
      exact ih h.2

theorem get_foldl_setType (pairs : List (ActivityType × ℕ)) (st : ActivityStats)
    (t : ActivityType) (hnd : (pairs.map Prod.fst).Nodup) :
    (pairs.foldl (fun s tc => s.setType tc.1 tc.2) st).get t =
      (pairs.lookup t).getD (st.get t) := by
  induction pairs generalizing st with
  | nil => rfl
  | cons hd tl ih =>
      obtain ⟨k, c⟩ := hd
      rw [List.map_cons, List.nodup_cons] at hnd
      rw [List.foldl_cons, ih _ hnd.2, List.lookup_cons]
      cases hbeq : (t == k) with
      | true =>
          have ht : t = k := eq_of_beq hbeq
          simp only [hbeq]
          rw [ht, lookup_eq_none_of_not_mem tl k hnd.1]
          simp [ActivityStats.get_setType_self]
      | false =>
          have ht : t ≠ k := ne_of_beq_false hbeq
          simp only [hbeq]
          rw [ActivityStats.get_setType_ne st k t c ht]

theorem typeAggregate_keys (acts : List Activity) :
    (typeAggregate acts).map Prod.fst = (acts.map Activity.type).dedup := by
  unfold typeAggregate
  rw [List.map_map]
  show List.map (fun t => t) _ = _
  exact List.map_id' _

theorem countP_type_eq_zero_of_not_mem (acts : List Activity) (t : ActivityType)
    (h : t ∉ acts.map Activity.type) :
    acts.countP (fun a => a.type == t) = 0 := by
  rw [List.countP_eq_zero]
  intro a ha hp
  exact h (List.mem_map.mpr ⟨a, ha, eq_of_beq hp⟩)

theorem lookup_typeAggregate (acts : List Activity) (t : ActivityType) :
    (typeAggregate acts).lookup t =
      if t ∈ (acts.map Activity.type).dedup
      then some (acts.countP (fun a => a.type == t)) else none := by
  unfold typeAggregate
  generalize (acts.map Activity.type).dedup = l
  induction l with
  | nil => simp
  | cons hd tl ih =>
      rw [List.map_cons, List.lookup_cons]
      cases hbeq : (t == hd) with
      | true =>
          have ht : t = hd := eq_of_beq hbeq
          simp only [hbeq]
          rw [if_pos (by rw [ht]; exact List.mem_cons_self hd tl), ht]
      | false =>
          have ht : t ≠ hd := ne_of_beq_false hbeq
          simp only [hbeq, ih]
          by_cases hm : t ∈ tl
          · rw [if_pos hm, if_pos (List.mem_cons_of_mem hd hm)]
          · rw [if_neg hm, if_neg (by simp [List.mem_cons, ht, hm])]

theorem formattedStats_get (acts : List Activity) (t : ActivityType) :
    (formattedStats acts).get t = acts.countP (fun a => a.type == t) := by
  unfold formattedStats
  rw [get_foldl_setType _ _ _ (by rw [typeAggregate_keys]; exact List.nodup_dedup _),
    lookup_typeAggregate]
  by_cases hm : t ∈ (acts.map Activity.type).dedup
  · rw [if_pos hm]
    rfl
  · rw [if_neg hm]
    have h0 : acts.countP (fun a => a.type == t) = 0 :=
      countP_type_eq_zero_of_not_mem acts t (fun hc => hm (List.mem_dedup.mpr hc))
    rw [h0]
    cases t <;> rfl

theorem formattedStats_all (acts : List Activity) :
    (formattedStats acts).all = acts.length := by
  unfold formattedStats
  exact all_foldl_setType _ _

/-- C9: the activity statistics always populate all four type fields plus the
`all` total, reporting 0 (not an absent key) for types with no records; for 3
sync and 2 emergency records the result is exactly
all 5, sync 3, location 0, emergency 2, system 0. -/
theorem activity_stats_counts (acts : List Activity) :
    (formattedStats acts).all = acts.length
    ∧ (formattedStats acts).sync = acts.countP (fun a => a.type == ActivityType.sync)
    ∧ (formattedStats acts).location = acts.countP (fun a => a.type == ActivityType.location)
    ∧ (formattedStats acts).emergency = acts.countP (fun a => a.type == ActivityType.emergency)
    ∧ (formattedStats acts).system = acts.countP (fun a => a.type == ActivityType.system)
    ∧ formattedStats
        [Activity.mk .sync .success, Activity.mk .sync .success, Activity.mk .sync .success,
          Activity.mk .emergency .warning, Activity.mk .emergency .error] =
        { all := 5, sync := 3, location := 0, emergency := 2, system := 0 } := by
  exact ⟨formattedStats_all acts, formattedStats_get acts ActivityType.sync,
    formattedStats_get acts ActivityType.location,
    formattedStats_get acts ActivityType.emergency,
    formattedStats_get acts ActivityType.system, by decide⟩

end SafetyBand
